import Mathlib

/-!
Verification of the st-assistant Streamlit application (src/app.py).

The file embeds, as pure Lean functions over explicit state and an explicit
environment, the pieces of `app.py` that the claims are about:

* `analyze_data`            (app.py lines 170-175)
* `handle_requires_action`  (app.py lines 178-203)
* `data_streamer`           (app.py lines 206-242)
* `add_message_to_state_session` / `display_stream` (lines 244-266)
* the analysis section of `main` (lines 349-424): thread creation,
  moderation, message submission, stream consumption, tool-request
  draining, file retrieval
* the reset action of `main` (lines 427-443)
* `moderation_endpoint` (lines 101-108), `delete_files` (110-117),
  `delete_thread` (119-125), `retrieve_assistant_created_files` (127-138)

Remote calls are modelled by an `Env` record of oracles (moderation
outcome, file contents, the event streams the service sends back) and the
remote-visible side effects are collected into a trace of `RemoteOp`
values.  Exceptions raised by remote calls that the source catches are
modelled as caught; the one exception the source does not catch
(`analyze_data(**kwargs)` with kwargs that do not bind) surfaces as
`Except.error`.
-/

namespace StAssistant

abbrev FileId := String
abbrev ThreadId := String

/-- One content block inside a `thread.message.delta` event
(`response.data.delta.content[0]` in `data_streamer`). -/
inductive ContentDelta where
  | text (value : String)
  | image_file (file_id : FileId)
  | otherContent (tag : String)
deriving DecidableEq, Repr

/-- The part of a tool-call descriptor the dispatcher reads:
`tool.function.name` and `tool.function.arguments`.  Arguments are the
already-parsed JSON object (`none` models the empty-arguments branch of
`handle_requires_action`, which substitutes an empty mapping). -/
structure ToolFunction where
  name : String
  arguments : Option (List (String × String))
deriving DecidableEq, Repr

/-- One entry of `data.required_action.submit_tool_outputs.tool_calls`. -/
structure ToolCall where
  id : String
  function : ToolFunction
deriving DecidableEq, Repr

/-- The payload of a `thread.run.requires_action` event, as read by
`handle_requires_action`: `data.thread_id`, `data.id` (the run id) and the
tool-call descriptors. -/
structure ToolRequestData where
  thread_id : ThreadId
  id : String
  tool_calls : List ToolCall
deriving DecidableEq, Repr

/-- A server-sent event of a run stream, keyed as `response.event` is in
`data_streamer`.  `other` covers every event type the streamer does not
match on. -/
inductive StreamEvent where
  | message_delta (content : ContentDelta)
  | requires_action (data : ToolRequestData)
  | run_failed
  | other (tag : String)
deriving DecidableEq, Repr

/-- An item yielded by `data_streamer`: either a text fragment or a decoded
image (`Image.open` applied to the fetched bytes; we keep the bytes). -/
inductive StreamItem where
  | text (s : String)
  | image (bytes : String)
deriving DecidableEq, Repr

/-- The function `analyze_data` (app.py 170-175), minus the `time.sleep(2)` which is
modelled by `analyzeDataDelaySeconds`. -/
def analyze_data (dataset_name : String) (question : String) : String :=
  "Analysis of " ++ dataset_name ++ " complete. The answer to \x27" ++
    question ++ "\x27 is in the generated visualizations and data."

/-- The argument of `time.sleep` in `analyze_data`. -/
def analyzeDataDelaySeconds : Nat := 2

/-- Minimal JSON values: enough for the payloads `app.py` serialises,
which are flat objects whose values are strings. -/
inductive Json where
  | str (s : String)
  | obj (fields : List (String × String))
deriving DecidableEq, Repr

/-- The function `json.dumps` on the fragment of JSON above. -/
def Json.dumps : Json → String
  | .str s => "\"" ++ s ++ "\""
  | .obj fields =>
      "\x7b" ++ String.intercalate ", "
        (fields.map (fun p => "\"" ++ p.1 ++ "\": \"" ++ p.2 ++ "\"")) ++ "\x7d"

/-- Key lookup in an association list of strings (used both for JSON
object fields and for parsed keyword arguments). -/
def kwargsLookup : List (String × String) → String → Option String
  | [], _ => none
  | (k, v) :: rest, key => if k = key then some v else kwargsLookup rest key

/-- Field lookup in a JSON object (`none` on non-objects). -/
def Json.lookup : Json → String → Option String
  | .str _, _ => none
  | .obj fields, key => kwargsLookup fields key

/-- The `ret_val` dictionary `handle_requires_action` serialises for an
unrecognized function name (app.py 196-199). -/
def unrecognizedFunctionPayload : Json :=
  .obj [("status", "error"),
        ("message", "Function name is not recognized. Please check your request structure.")]

/-- Python keyword binding for `analyze_data(**function_arguments)`: it
succeeds exactly when the mapping supplies `dataset_name` and `question`
and nothing else; otherwise Python raises `TypeError`. -/
def analyzeDataKwargs (args : List (String × String)) : Option (String × String) :=
  if args.all (fun p => p.1 = "dataset_name" || p.1 = "question") then
    match kwargsLookup args "dataset_name", kwargsLookup args "question" with
    | some d, some q => some (d, q)
    | _, _ => none
  else none

/-- The body of the `for tool in ...tool_calls` loop of
`handle_requires_action` (app.py 183-200), for one descriptor.  An
`Except.error` models the uncaught `TypeError` when `**kwargs` binding
fails; the unrecognized-name branch never raises. -/
def handleToolCall (tool : ToolCall) : Except String (String × String) :=
  let function_arguments := tool.function.arguments.getD []
  if tool.function.name = "analyze_data" then
    match analyzeDataKwargs function_arguments with
    | some (d, q) => .ok (tool.id, analyze_data d q)
    | none => .error "TypeError: bad keyword arguments for analyze_data"
  else .ok (tool.id, Json.dumps unrecognizedFunctionPayload)

/-- The full loop: outputs accumulate in descriptor order; the first raise
aborts the call. -/
def handleToolCalls : List ToolCall → Except String (List (String × String))
  | [] => .ok []
  | tool :: rest =>
      match handleToolCall tool with
      | .error e => .error e
      | .ok out =>
          match handleToolCalls rest with
          | .error e => .error e
          | .ok outs => .ok (out :: outs)

/-- The function `handle_requires_action` (app.py 178-203): returns the ordered
`(tool_call_id, output)` pairs together with `data.thread_id` and
`data.id`. -/
def handle_requires_action (tool_request : ToolRequestData) :
    Except String (List (String × String) × ThreadId × String) :=
  match handleToolCalls tool_request.tool_calls with
  | .error e => .error e
  | .ok tool_outputs => .ok (tool_outputs, tool_request.thread_id, tool_request.id)

/-- The outcome of one invocation of `data_streamer` (app.py 206-242):
the yielded items in order, the `thread.run.requires_action` event put on
`tool_requests` (at most one, because the streamer returns right after the
`put`), and the file ids appended to `ss.assistant_created_file_ids`. -/
structure StreamerResult where
  yielded : List StreamItem
  enqueued : Option ToolRequestData
  imageIds : List FileId
deriving DecidableEq, Repr

/-- The function `data_streamer` (app.py 206-242) over the event list of `ss.stream`.
`files` is the remote `client.files.content(...).read()` oracle; the
second argument is the `content_produced` flag. -/
def data_streamer (files : FileId → String) :
    List StreamEvent → Bool → StreamerResult
  | [], _ => ⟨[], none, []⟩
  | event :: rest, content_produced =>
      match event with
      | .message_delta (.text value) =>
          let r := data_streamer files rest true
          ⟨.text value :: r.yielded, r.enqueued, r.imageIds⟩
      | .message_delta (.image_file fid) =>
          let r := data_streamer files rest true
          ⟨.image (files fid) :: r.yielded, r.enqueued, fid :: r.imageIds⟩
      | .message_delta (.otherContent _) =>
          data_streamer files rest content_produced
      | .requires_action data =>
          ⟨if content_produced then [] else [.text "[Running data analysis...]"],
           some data, []⟩
      | .run_failed =>
          ⟨[.text "[Analysis failed. Please try again.]"], none, []⟩
      | .other _ =>
          data_streamer files rest content_produced

/-- Content of a transcript message: a string or an image
(`ss.messages` entries hold either). -/
inductive MsgContent where
  | text (s : String)
  | image (bytes : String)
deriving DecidableEq, Repr

/-- One entry of `ss.messages`: `{"role": ..., "content": ...}`. -/
structure Msg where
  role : String
  content : MsgContent
deriving DecidableEq, Repr

/-- The per-session state `app.py` keeps in `st.session_state`
(lines 81-98): the uploaded flag, the transcript, the thread id, the
uploaded and assistant-created file-id lists, and the `tool_requests`
FIFO queue (front of the list = front of the queue). -/
structure SessionState where
  file_uploaded : Bool
  messages : List Msg
  thread_id : Option ThreadId
  file_ids : List FileId
  assistant_created_file_ids : List FileId
  tool_requests : List ToolRequestData
deriving DecidableEq, Repr

/-- A remote API call made during a turn, recorded in call order. -/
inductive RemoteOp where
  | moderationCheck (text : String)
  | threadCreate (tid : ThreadId)
  | threadUpdate (tid : ThreadId) (file_ids : List FileId)
  | messageCreate (tid : ThreadId) (role : String) (content : String)
  | runStream (tid : ThreadId)
  | submitToolOutputs (tid : ThreadId) (run_id : String)
      (outputs : List (String × String))
  | messagesList (tid : ThreadId)
  | filesContent (fid : FileId)
  | threadDelete (tid : ThreadId)
  | fileDelete (fid : FileId)
deriving DecidableEq, Repr

/-- One message returned by `client.beta.threads.messages.list`, as read
by `retrieve_assistant_created_files`: its role and its attachments
(identified by file id). -/
structure RemoteMessage where
  role : String
  attachments : List FileId
deriving DecidableEq, Repr

/-- The environment of one turn: the outcomes the remote service hands
back.  `moderationResult` is the outcome of `client.moderations.create`
(`.error` models a raised exception); `files` is the
`client.files.content(...).read()` oracle (modelled total: a raised fetch
would abort the script, which no claim is about); `initialStream` is the
event sequence of `client.beta.threads.runs.stream`;
`followupStreams` are the event sequences of the successive
`submit_tool_outputs_stream` calls, in order (when the list is exhausted
the remaining follow-up streams are empty); `messagesListResult` is the
outcome of `messages.list` inside `retrieve_assistant_created_files`;
`fileContentOk` tells which file downloads succeed inside
`render_download_files`. -/
structure Env where
  moderationResult : Except String Bool
  files : FileId → String
  freshThreadId : ThreadId
  initialStream : List StreamEvent
  followupStreams : List (List StreamEvent)
  messagesListResult : Except String (List RemoteMessage)
  fileContentOk : FileId → Bool

/-- The function `moderation_endpoint` (app.py 101-108): returns the remote flag, and
on any exception logs it and returns `False`. -/
def moderation_endpoint (result : Except String Bool) : Bool :=
  match result with
  | .ok flagged => flagged
  | .error _ => false

/-- The function `retrieve_assistant_created_files` (app.py 127-138), inner loops: walk
the listed messages in order and collect the attachment file ids of the
assistant ones. -/
def retrieve_assistant_created_files : List RemoteMessage → List FileId
  | [] => []
  | m :: rest =>
      if m.role = "assistant" then
        m.attachments ++ retrieve_assistant_created_files rest
      else retrieve_assistant_created_files rest

/-- The function `retrieve_assistant_created_files` including its `try/except`: when
`messages.list` raises, the initial empty list is returned. -/
def retrieveAssistantCreatedFilesCall
    (result : Except String (List RemoteMessage)) : List FileId :=
  match result with
  | .error _ => []
  | .ok msgs => retrieve_assistant_created_files msgs

/-- The function `render_download_files` (app.py 140-167): a download button is
rendered for exactly the ids whose content fetch succeeds (a per-file
exception is caught and that file skipped).  Returns the offered ids. -/
def render_download_files (fileContentOk : FileId → Bool) :
    List FileId → List FileId
  | [] => []
  | fid :: rest =>
      if fileContentOk fid then fid :: render_download_files fileContentOk rest
      else render_download_files fileContentOk rest

/-- The function `st.write_stream` aggregation: consecutive string chunks accumulate
into one text block; a non-string chunk (an image) becomes its own block. -/
def writeStreamChunks : List StreamItem → List MsgContent
  | [] => []
  | .text s :: rest =>
      match writeStreamChunks rest with
      | .text t :: more => .text (s ++ t) :: more
      | other => .text s :: other
  | .image b :: rest => .image b :: writeStreamChunks rest

/-- The function `add_message_to_state_session` (app.py 244-247): append the block as
an assistant message, skipping empty strings. -/
def add_message_to_state_session (messages : List Msg) (message : MsgContent) :
    List Msg :=
  match message with
  | .text s =>
      if 0 < s.length then messages ++ [⟨"assistant", .text s⟩] else messages
  | .image b => messages ++ [⟨"assistant", .image b⟩]

/-- The transcript effect of `display_stream` (app.py 249-266): every
block of the aggregated response is appended via
`add_message_to_state_session` (the single-string and list branches both
reduce to this). -/
def displayStreamMessages (messages : List Msg) (yielded : List StreamItem) :
    List Msg :=
  (writeStreamChunks yielded).foldl add_message_to_state_session messages

/-- Lines 356-365 of `main`: when `ss.thread_id` is null, create a thread,
store its id and attach the uploaded files; otherwise reuse the stored
id.  Returns the updated state, the (now non-null) thread id, and the
remote calls made. -/
def ensureThread (s : SessionState) (fresh : ThreadId) :
    SessionState × ThreadId × List RemoteOp :=
  match s.thread_id with
  | some tid => (s, tid, [])
  | none =>
      ({ s with thread_id := some fresh }, fresh,
       [.threadCreate fresh, .threadUpdate fresh s.file_ids])

/-- Outcome of the `while not tool_requests.empty()` loop
(app.py 408-417). -/
structure DrainResult where
  messages : List Msg
  assistantFileIds : List FileId
  ops : List RemoteOp
  dispatched : List ToolRequestData
  enqueuedLog : List ToolRequestData
  queueFinal : List ToolRequestData
  aborted : Bool
deriving Repr

/-- The drain loop once `followupStreams` is exhausted: every further
follow-up stream is empty, so each remaining iteration pops one request,
dispatches it and submits its outputs, adding nothing new to the
transcript or the queue.  An `Except.error` from the dispatcher models
the uncaught exception aborting the script run (the request was already
popped by `tool_requests.get()`). -/
def drainRemaining (messages : List Msg) (acfi : List FileId) :
    List ToolRequestData → List RemoteOp → List ToolRequestData →
    List ToolRequestData → DrainResult
  | [], ops, disp, enq => ⟨messages, acfi, ops, disp, enq, [], false⟩
  | r :: rest, ops, disp, enq =>
      match handle_requires_action r with
      | .error _ => ⟨messages, acfi, ops, disp ++ [r], enq, rest, true⟩
      | .ok (outs, tid, run_id) =>
          drainRemaining messages acfi rest
            (ops ++ [.submitToolOutputs tid run_id outs]) (disp ++ [r]) enq

/-- The `while not tool_requests.empty()` loop (app.py 408-417): pop a
request, dispatch it through `handle_requires_action`, submit the outputs
as a new stream, and drive `data_streamer` on that follow-up stream
(`display_stream(tool_stream, create_context=False)`), which may extend
the transcript, record image ids and enqueue a further request. -/
def drainToolRequests (files : FileId → String) :
    List ToolRequestData → List (List StreamEvent) →
    List Msg → List FileId → List RemoteOp → List ToolRequestData →
    List ToolRequestData → DrainResult
  | q, [], messages, acfi, ops, disp, enq =>
      drainRemaining messages acfi q ops disp enq
  | [], _ :: _, messages, acfi, ops, disp, enq =>
      ⟨messages, acfi, ops, disp, enq, [], false⟩
  | r :: rest, fw :: fws, messages, acfi, ops, disp, enq =>
      match handle_requires_action r with
      | .error _ => ⟨messages, acfi, ops, disp ++ [r], enq, rest, true⟩
      | .ok (outs, tid, run_id) =>
          let res := data_streamer files fw false
          drainToolRequests files (rest ++ res.enqueued.toList) fws
            (displayStreamMessages messages res.yielded)
            (acfi ++ res.imageIds)
            (ops ++ [.submitToolOutputs tid run_id outs])
            (disp ++ [r])
            (enq ++ res.enqueued.toList)

/-- Outcome of one pass through the analysis section of `main`
(app.py 349-424) on a rerun. -/
structure TurnResult where
  state : SessionState
  ops : List RemoteOp
  dispatched : List ToolRequestData
  enqueuedLog : List ToolRequestData
  downloadsOffered : List FileId
  aborted : Bool
deriving Repr

/-- The analysis section of `main` (app.py 349-424), for a rerun with
`ss.file_uploaded` true.  First the thread is ensured (356-365); then, if
the chat input delivered a question: moderation check (381), user message
appended to the transcript (390) and created remotely (393-397), the run
stream opened and consumed (400-405), the tool-request queue drained
(408-417), and finally `ss.assistant_created_file_ids` is overwritten
with `retrieve_assistant_created_files(ss.thread_id)` (420) and download
buttons rendered for that list (423-424). -/
def analysisTurn (env : Env) (s0 : SessionState) (question : Option String) :
    TurnResult :=
  let ensured := ensureThread s0 env.freshThreadId
  let s1 := ensured.1
  let tid := ensured.2.1
  let opsEnsure := ensured.2.2
  match question with
  | none => ⟨s1, opsEnsure, [], [], [], false⟩
  | some q =>
      if moderation_endpoint env.moderationResult then
        ⟨s1, opsEnsure ++ [.moderationCheck q], [], [], [], false⟩
      else
        let s2 := { s1 with messages := s1.messages ++ [Msg.mk "user" (.text q)] }
        let opsStart := opsEnsure ++
          [.moderationCheck q, .messageCreate tid "user" q, .runStream tid]
        let res := data_streamer env.files env.initialStream false
        let dr := drainToolRequests env.files
          (s2.tool_requests ++ res.enqueued.toList) env.followupStreams
          (displayStreamMessages s2.messages res.yielded)
          (s2.assistant_created_file_ids ++ res.imageIds)
          opsStart [] res.enqueued.toList
        if dr.aborted then
          ⟨{ s2 with
              messages := dr.messages
              assistant_created_file_ids := dr.assistantFileIds
              tool_requests := dr.queueFinal },
           dr.ops, dr.dispatched, dr.enqueuedLog, [], true⟩
        else
          let retrieved := retrieveAssistantCreatedFilesCall env.messagesListResult
          let offered :=
            if retrieved = [] then []
            else render_download_files env.fileContentOk retrieved
          ⟨{ s2 with
              messages := dr.messages
              assistant_created_file_ids := retrieved
              tool_requests := dr.queueFinal },
           dr.ops ++ .messagesList tid :: retrieved.map RemoteOp.filesContent,
           dr.dispatched, dr.enqueuedLog, offered, false⟩

/-- Success oracles for the remote delete calls made by the reset action;
both `delete_thread` and `delete_files` catch every exception
(app.py 110-125), so these outcomes only reach the log. -/
structure ResetEnv where
  threadDeleteOk : ThreadId → Bool
  fileDeleteOk : FileId → Bool

/-- The function `delete_files` (app.py 110-117): attempt to delete every id; a
per-file exception is caught and logged, the loop always completes. -/
def delete_files (env : ResetEnv) : List FileId → List RemoteOp
  | [] => []
  | fid :: rest => .fileDelete fid :: delete_files env rest

/-- The function `delete_thread` (app.py 119-125): attempt the delete; an exception is
caught and logged. -/
def delete_thread (_env : ResetEnv) (tid : ThreadId) : List RemoteOp :=
  [.threadDelete tid]

/-- The "Start New Analysis" reset action (app.py 427-443): delete the
thread and the tracked files (guarded on non-null / non-empty), then
clear the session fields.  `ss.tool_requests` is not touched. -/
def resetSession (env : ResetEnv) (s : SessionState) :
    SessionState × List RemoteOp :=
  let opsThread := match s.thread_id with
    | some tid => delete_thread env tid
    | none => []
  let opsFiles := if s.file_ids = [] then [] else delete_files env s.file_ids
  let opsCreated :=
    if s.assistant_created_file_ids = [] then []
    else delete_files env s.assistant_created_file_ids
  ({ file_uploaded := false
     messages := []
     thread_id := none
     file_ids := []
     assistant_created_file_ids := []
     tool_requests := s.tool_requests },
   opsThread ++ opsFiles ++ opsCreated)

/-- A concrete tool request carrying one unrecognized function name
("foo"), used to witness `c6_unknown_function_error`. -/
def fooRequest : ToolRequestData :=
  ⟨"thread_1", "run_1", [⟨"call_1", ⟨"foo", none⟩⟩]⟩

/-- A concrete tool request for `analyze_data` with well-formed keyword
arguments, used in witnesses. -/
def analyzeRequest : ToolRequestData :=
  ⟨"t0", "run_1",
   [⟨"call_1", ⟨"analyze_data",
      some [("dataset_name", "sales"), ("question", "top products")]⟩⟩]⟩

/-- A concrete session state for witnesses: files uploaded, a live thread
`t0`, one uploaded file, an empty transcript and an empty queue. -/
def baseState : SessionState := ⟨true, [], some "t0", ["up1"], [], []⟩

/-- A concrete environment whose run raises one tool request and whose
follow-up stream ends with plain text, used in witnesses. -/
def happyEnv : Env :=
  { moderationResult := .ok false
    files := fun _ => "BYTES"
    freshThreadId := "t_new"
    initialStream := [.requires_action analyzeRequest]
    followupStreams := [[.message_delta (.text "done")]]
    messagesListResult := .ok []
    fileContentOk := fun _ => true }

/-- The failing input for claim C3: the run stream emits one image with
file id `img1`, and the later `messages.list` shows no assistant
attachments (an image delivered as message content is not an
attachment). -/
def imageEnv : Env :=
  { moderationResult := .ok false
    files := fun _ => "PNGBYTES"
    freshThreadId := "t_new"
    initialStream := [.message_delta (.image_file "img1")]
    followupStreams := []
    messagesListResult := .ok [⟨"assistant", []⟩, ⟨"user", ["up1"]⟩]
    fileContentOk := fun _ => true }

/-- A concrete reset environment in which every delete call fails. -/
def failingResetEnv : ResetEnv := ⟨fun _ => false, fun _ => false⟩

/-- A concrete session state before reset: non-null thread, non-empty
uploaded and generated file lists, a non-empty transcript. -/
def preResetState : SessionState :=
  ⟨true, [⟨"user", .text "hi"⟩], some "t0", ["up1"], ["gen1"], []⟩

end StAssistant

namespace StAssistant

/-- Claim C1: consuming
`[message.delta(text="A"), message.delta(text="B"), run.requires_action]`
yields exactly the fragments "A" and "B" in order, enqueues exactly that
one requires_action event, records no file ids, and terminates with no
further item — in particular no placeholder fragment, since content was
already produced. -/
theorem c1_two_texts_then_requires_action (files : FileId → String)
    (req : ToolRequestData) :
    data_streamer files
      [.message_delta (.text "A"), .message_delta (.text "B"),
       .requires_action req] false
      = ⟨[.text "A", .text "B"], some req, []⟩ := rfl

/-- Claim C7: with no content produced yet, any run of unrecognized event
types is ignored, and a `run.requires_action` event is enqueued, exactly
one placeholder fragment "[Running data analysis...]" is emitted, and the
streamer returns without consuming the remaining events (`rest` is
arbitrary and absent from the result). -/
theorem c7_requires_action_placeholder (files : FileId → String)
    (others : List String) (req : ToolRequestData) (rest : List StreamEvent) :
    data_streamer files
      (others.map StreamEvent.other ++ StreamEvent.requires_action req :: rest) false
      = ⟨[.text "[Running data analysis...]"], some req, []⟩ := by
  induction others with
  | nil => rfl
  | cons t ts ih => simpa [data_streamer] using ih

/-- Claim C8: `analyze_data "sales" "what are the top products?"` returns
the fixed templated string (so the result is deterministic: equal
arguments give this same string), the result contains both literal
substrings, and the simulated delay is non-zero. -/
theorem c8_analyze_data_direct :
    analyze_data "sales" "what are the top products?" =
      "Analysis of sales complete. The answer to \x27what are the top products?\x27 is in the generated visualizations and data."
    ∧ (∃ pre post,
        analyze_data "sales" "what are the top products?" = pre ++ "sales" ++ post)
    ∧ (∃ pre post,
        analyze_data "sales" "what are the top products?"
          = pre ++ "what are the top products?" ++ post)
    ∧ 0 < analyzeDataDelaySeconds := by
  refine ⟨rfl,
    ⟨"Analysis of ",
     " complete. The answer to \x27what are the top products?\x27 is in the generated visualizations and data.",
     by decide⟩,
    ⟨"Analysis of sales complete. The answer to \x27",
     "\x27 is in the generated visualizations and data.",
     by decide⟩,
    by decide⟩

/-- The function `handleToolCall` on an unrecognized function name never raises and
produces the serialised error payload. -/
theorem handleToolCall_unknown (tool : ToolCall)
    (h : tool.function.name ≠ "analyze_data") :
    handleToolCall tool = .ok (tool.id, Json.dumps unrecognizedFunctionPayload) := by
  simp [handleToolCall, h]

/-- The function `handleToolCalls` on a list of all-unrecognized descriptors returns
the error pair for each descriptor, in order. -/
theorem handleToolCalls_all_unknown (tools : List ToolCall)
    (h : ∀ tool ∈ tools, tool.function.name ≠ "analyze_data") :
    handleToolCalls tools =
      .ok (tools.map fun tool => (tool.id, Json.dumps unrecognizedFunctionPayload)) := by
  induction tools with
  | nil => rfl
  | cons t ts ih =>
      have ht : t.function.name ≠ "analyze_data" := h t (by simp)
      have hts : ∀ tool ∈ ts, tool.function.name ≠ "analyze_data" :=
        fun tool hm => h tool (by simp [hm])
      simp [handleToolCalls, handleToolCall_unknown t ht, ih hts]

/-- Claim C6: for a tool request all of whose descriptors carry a function
name outside the registry (not "analyze_data"), the dispatcher does not
raise: it returns the full ordered list of (call id, output) pairs — one
per descriptor — together with the originating thread and run ids, and
each output string decodes as a JSON object with `status = "error"` and a
`message` field. -/
theorem c6_unknown_function_error (data : ToolRequestData)
    (h : ∀ tool ∈ data.tool_calls, tool.function.name ≠ "analyze_data") :
    handle_requires_action data =
      .ok (data.tool_calls.map
             (fun tool => (tool.id, Json.dumps unrecognizedFunctionPayload)),
           data.thread_id, data.id)
    ∧ ∃ j : Json, Json.dumps unrecognizedFunctionPayload = Json.dumps j
        ∧ j.lookup "status" = some "error"
        ∧ (j.lookup "message").isSome := by
  refine ⟨?_, unrecognizedFunctionPayload, rfl, by decide, by decide⟩
  simp [handle_requires_action, handleToolCalls_all_unknown data.tool_calls h]

/-- Witness for C6 at the concrete request `fooRequest`. -/
theorem c6_unknown_function_error_witness :
    (∀ tool ∈ fooRequest.tool_calls, tool.function.name ≠ "analyze_data")
    ∧ (handle_requires_action fooRequest =
        .ok (fooRequest.tool_calls.map
               (fun tool => (tool.id, Json.dumps unrecognizedFunctionPayload)),
             fooRequest.thread_id, fooRequest.id)
      ∧ ∃ j : Json, Json.dumps unrecognizedFunctionPayload = Json.dumps j
          ∧ j.lookup "status" = some "error"
          ∧ (j.lookup "message").isSome) :=
  ⟨by decide, c6_unknown_function_error fooRequest (by decide)⟩

/-- Claim C5: the reset action, invoked with a non-null thread id and
non-empty uploaded and generated file lists, always leaves an empty
transcript, a null thread id, empty file-id lists and a false uploaded
flag.  The delete-success oracles of `env` are arbitrary: both
`delete_thread` and `delete_files` catch every exception, so the clearing
happens regardless of remote failures. -/
theorem c5_reset_clears_session (env : ResetEnv) (s : SessionState)
    (h1 : s.thread_id ≠ none) (h2 : s.file_ids ≠ [])
    (h3 : s.assistant_created_file_ids ≠ []) :
    (resetSession env s).1.messages = []
    ∧ (resetSession env s).1.thread_id = none
    ∧ (resetSession env s).1.file_ids = []
    ∧ (resetSession env s).1.assistant_created_file_ids = []
    ∧ (resetSession env s).1.file_uploaded = false := by
  simp [resetSession]

/-- Witness for C5: reset of `preResetState` with every delete failing. -/
theorem c5_reset_clears_session_witness :
    (preResetState.thread_id ≠ none ∧ preResetState.file_ids ≠ []
      ∧ preResetState.assistant_created_file_ids ≠ [])
    ∧ ((resetSession failingResetEnv preResetState).1.messages = []
      ∧ (resetSession failingResetEnv preResetState).1.thread_id = none
      ∧ (resetSession failingResetEnv preResetState).1.file_ids = []
      ∧ (resetSession failingResetEnv preResetState).1.assistant_created_file_ids = []
      ∧ (resetSession failingResetEnv preResetState).1.file_uploaded = false) :=
  ⟨by decide,
   c5_reset_clears_session failingResetEnv preResetState
     (by decide) (by decide) (by decide)⟩

/-- Claim C4: when the moderation check flags the question, the turn
aborts after the warning: the session state is unchanged (in particular
the question is never appended to the transcript), the only remote call
of the turn is the moderation check itself — no message create, no run
stream, no mutation — and nothing is dispatched or enqueued.  The
hypothesis `ht` reflects the orchestration order: the thread is ensured
on the rerun that follows the upload, before the chat-input widget can
deliver a question, so a question is only ever processed with a non-null
stored thread id. -/
theorem c4_flagged_question_aborts_turn (env : Env) (s0 : SessionState)
    (q : String) (t : ThreadId) (ht : s0.thread_id = some t)
    (hf : moderation_endpoint env.moderationResult = true) :
    (analysisTurn env s0 (some q)).state = s0
    ∧ (analysisTurn env s0 (some q)).ops = [.moderationCheck q]
    ∧ (analysisTurn env s0 (some q)).dispatched = []
    ∧ (analysisTurn env s0 (some q)).enqueuedLog = []
    ∧ (analysisTurn env s0 (some q)).aborted = false := by
  simp [analysisTurn, ensureThread, ht, hf]

/-- Witness for C4: a flagged question against `baseState`. -/
theorem c4_flagged_question_aborts_turn_witness :
    (baseState.thread_id = some "t0"
      ∧ moderation_endpoint (Env.moderationResult
          { happyEnv with moderationResult := .ok true }) = true)
    ∧ ((analysisTurn { happyEnv with moderationResult := .ok true }
          baseState (some "bad question")).state = baseState
      ∧ (analysisTurn { happyEnv with moderationResult := .ok true }
          baseState (some "bad question")).ops = [.moderationCheck "bad question"]
      ∧ (analysisTurn { happyEnv with moderationResult := .ok true }
          baseState (some "bad question")).dispatched = []
      ∧ (analysisTurn { happyEnv with moderationResult := .ok true }
          baseState (some "bad question")).enqueuedLog = []
      ∧ (analysisTurn { happyEnv with moderationResult := .ok true }
          baseState (some "bad question")).aborted = false) :=
  ⟨⟨rfl, rfl⟩,
   c4_flagged_question_aborts_turn { happyEnv with moderationResult := .ok true }
     baseState "bad question" "t0" rfl rfl⟩

/-- The function `ensureThread` never touches the tool-request queue. -/
theorem ensureThread_tool_requests (s : SessionState) (f : ThreadId) :
    (ensureThread s f).1.tool_requests = s.tool_requests := by
  cases h : s.thread_id <;> simp [ensureThread, h]

/-- The function `add_message_to_state_session` only appends. -/
theorem add_message_extends (messages : List Msg) (c : MsgContent) :
    ∃ t, add_message_to_state_session messages c = messages ++ t := by
  cases c with
  | text s =>
      by_cases h : 0 < s.length
      · exact ⟨[⟨"assistant", .text s⟩], by simp [add_message_to_state_session, h]⟩
      · exact ⟨[], by simp [add_message_to_state_session, h]⟩
  | image b => exact ⟨[⟨"assistant", .image b⟩], by simp [add_message_to_state_session]⟩

/-- Folding `add_message_to_state_session` over blocks only appends. -/
theorem foldl_add_message_extends (blocks : List MsgContent) (messages : List Msg) :
    ∃ t, blocks.foldl add_message_to_state_session messages = messages ++ t := by
  induction blocks generalizing messages with
  | nil => exact ⟨[], by simp⟩
  | cons b bs ih =>
      obtain ⟨t1, h1⟩ := add_message_extends messages b
      obtain ⟨t2, h2⟩ := ih (add_message_to_state_session messages b)
      exact ⟨t1 ++ t2, by rw [List.foldl_cons, h2, h1, List.append_assoc]⟩

/-- The function `display_stream` only appends to the transcript. -/
theorem displayStreamMessages_extends (messages : List Msg)
    (yielded : List StreamItem) :
    ∃ t, displayStreamMessages messages yielded = messages ++ t :=
  foldl_add_message_extends (writeStreamChunks yielded) messages

/-- The function `drainRemaining` keeps the transcript, the recorded file ids and the
enqueued log unchanged, and only appends submit-tool-outputs calls to the
operation trace. -/
theorem drainRemaining_frame (q : List ToolRequestData) (messages : List Msg)
    (acfi : List FileId) (ops : List RemoteOp) (disp enq : List ToolRequestData) :
    (drainRemaining messages acfi q ops disp enq).messages = messages
    ∧ (drainRemaining messages acfi q ops disp enq).assistantFileIds = acfi
    ∧ (drainRemaining messages acfi q ops disp enq).enqueuedLog = enq
    ∧ ∃ t, (drainRemaining messages acfi q ops disp enq).ops = ops ++ t
        ∧ ∀ o ∈ t, ∃ tid run_id outs,
            o = RemoteOp.submitToolOutputs tid run_id outs := by
  induction q generalizing ops disp with
  | nil => exact ⟨rfl, rfl, rfl, [], by simp [drainRemaining], by simp⟩
  | cons r rest ih =>
      cases hh : handle_requires_action r with
      | error e =>
          refine ⟨?_, ?_, ?_, [], ?_, ?_⟩ <;> simp [drainRemaining, hh]
      | ok v =>
          obtain ⟨outs, tid, run_id⟩ := v
          obtain ⟨hm, ha, he, t, ht, hsub⟩ :=
            ih (ops ++ [RemoteOp.submitToolOutputs tid run_id outs]) (disp ++ [r])
          refine ⟨?_, ?_, ?_, RemoteOp.submitToolOutputs tid run_id outs :: t, ?_, ?_⟩
          · simpa [drainRemaining, hh] using hm
          · simpa [drainRemaining, hh] using ha
          · simpa [drainRemaining, hh] using he
          · simp only [drainRemaining, hh]
            simpa [List.append_assoc] using ht
          · intro o ho
            rcases List.mem_cons.mp ho with h | h
            · exact ⟨tid, run_id, outs, h⟩
            · exact hsub o h

/-- The function `drainToolRequests` with an exhausted follow-up list is
`drainRemaining`. -/
theorem drainToolRequests_nil (files : FileId → String)
    (q : List ToolRequestData) (messages : List Msg) (acfi : List FileId)
    (ops : List RemoteOp) (disp enq : List ToolRequestData) :
    drainToolRequests files q [] messages acfi ops disp enq
      = drainRemaining messages acfi q ops disp enq := by
  cases q <;> rfl

/-- The function `drainToolRequests` only appends to the transcript, and only appends
submit-tool-outputs calls to the operation trace. -/
theorem drainToolRequests_frame (files : FileId → String)
    (fws : List (List StreamEvent)) (q : List ToolRequestData)
    (messages : List Msg) (acfi : List FileId) (ops : List RemoteOp)
    (disp enq : List ToolRequestData) :
    (∃ tm, (drainToolRequests files q fws messages acfi ops disp enq).messages
        = messages ++ tm)
    ∧ ∃ t, (drainToolRequests files q fws messages acfi ops disp enq).ops
        = ops ++ t
        ∧ ∀ o ∈ t, ∃ tid run_id outs,
            o = RemoteOp.submitToolOutputs tid run_id outs := by
  induction fws generalizing q messages acfi ops disp enq with
  | nil =>
      obtain ⟨hm, _, _, t, ht, hs⟩ := drainRemaining_frame q messages acfi ops disp enq
      rw [drainToolRequests_nil]
      exact ⟨⟨[], by simp [hm]⟩, t, ht, hs⟩
  | cons fw fws ih =>
      cases q with
      | nil => exact ⟨⟨[], by simp [drainToolRequests]⟩, [], by simp [drainToolRequests], by simp⟩
      | cons r rest =>
          cases hh : handle_requires_action r with
          | error e =>
              refine ⟨⟨[], ?_⟩, [], ?_, by simp⟩ <;> simp [drainToolRequests, hh]
          | ok v =>
              obtain ⟨outs, tid, run_id⟩ := v
              obtain ⟨⟨tm, htm⟩, t, ht, hs⟩ :=
                ih (rest ++ (data_streamer files fw false).enqueued.toList)
                  (displayStreamMessages messages (data_streamer files fw false).yielded)
                  (acfi ++ (data_streamer files fw false).imageIds)
                  (ops ++ [RemoteOp.submitToolOutputs tid run_id outs])
                  (disp ++ [r])
                  (enq ++ (data_streamer files fw false).enqueued.toList)
              obtain ⟨t1, h1⟩ :=
                displayStreamMessages_extends messages (data_streamer files fw false).yielded
              refine ⟨⟨t1 ++ tm, ?_⟩,
                RemoteOp.submitToolOutputs tid run_id outs :: t, ?_, ?_⟩
              · simp only [drainToolRequests, hh]
                rw [htm, h1, List.append_assoc]
              · simp only [drainToolRequests, hh]
                rw [ht, List.append_assoc]
                rfl
              · intro o ho
                rcases List.mem_cons.mp ho with h | h
                · exact ⟨tid, run_id, outs, h⟩
                · exact hs o h

/-- If `drainRemaining` finishes without an uncaught dispatcher
exception, the queue is empty, every request of the entry queue was
dispatched, and every newly dispatched request was handled successfully
with its outputs submitted. -/
theorem drainRemaining_drained (q : List ToolRequestData) (messages : List Msg)
    (acfi : List FileId) (ops : List RemoteOp) (disp enq : List ToolRequestData)
    (hab : (drainRemaining messages acfi q ops disp enq).aborted = false) :
    (drainRemaining messages acfi q ops disp enq).queueFinal = []
    ∧ (∀ r ∈ disp, r ∈ (drainRemaining messages acfi q ops disp enq).dispatched)
    ∧ (∀ r ∈ q, r ∈ (drainRemaining messages acfi q ops disp enq).dispatched)
    ∧ (∀ r ∈ (drainRemaining messages acfi q ops disp enq).dispatched,
        r ∈ disp ∨ ∃ outs tid run_id,
          handle_requires_action r = .ok (outs, tid, run_id)
          ∧ RemoteOp.submitToolOutputs tid run_id outs
              ∈ (drainRemaining messages acfi q ops disp enq).ops) := by
  induction q generalizing ops disp with
  | nil =>
      refine ⟨rfl, ?_, ?_, ?_⟩
      · intro r hr; simpa [drainRemaining] using hr
      · intro r hr; simp at hr
      · intro r hr; exact Or.inl (by simpa [drainRemaining] using hr)
  | cons r0 rest ih =>
      cases hh : handle_requires_action r0 with
      | error e => simp [drainRemaining, hh] at hab
      | ok v =>
          obtain ⟨outs, tid, run_id⟩ := v
          have hab2 : (drainRemaining messages acfi rest
              (ops ++ [RemoteOp.submitToolOutputs tid run_id outs])
              (disp ++ [r0]) enq).aborted = false := by
            simpa [drainRemaining, hh] using hab
          obtain ⟨hqf, hdisp, hq, hcls⟩ :=
            ih (ops ++ [RemoteOp.submitToolOutputs tid run_id outs]) (disp ++ [r0]) hab2
          obtain ⟨_, _, _, t, ht, _⟩ :=
            drainRemaining_frame rest messages acfi
              (ops ++ [RemoteOp.submitToolOutputs tid run_id outs]) (disp ++ [r0]) enq
          refine ⟨?_, ?_, ?_, ?_⟩
          · simpa [drainRemaining, hh] using hqf
          · intro r hr
            have := hdisp r (by simp [hr])
            simpa [drainRemaining, hh] using this
          · intro r hr
            rcases List.mem_cons.mp hr with h | h
            · subst h
              have := hdisp r (by simp)
              simpa [drainRemaining, hh] using this
            · have := hq r h
              simpa [drainRemaining, hh] using this
          · intro r hr
            have hr2 : r ∈ (drainRemaining messages acfi rest
                (ops ++ [RemoteOp.submitToolOutputs tid run_id outs])
                (disp ++ [r0]) enq).dispatched := by
              simpa [drainRemaining, hh] using hr
            rcases hcls r hr2 with h | ⟨outs2, tid2, run_id2, hok, hmem⟩
            · rcases List.mem_append.mp h with h1 | h1
              · exact Or.inl h1
              · refine Or.inr ⟨outs, tid, run_id, ?_, ?_⟩
                · have : r = r0 := by simpa using h1
                  rw [this, hh]
                · have : RemoteOp.submitToolOutputs tid run_id outs
                      ∈ (drainRemaining messages acfi rest
                        (ops ++ [RemoteOp.submitToolOutputs tid run_id outs])
                        (disp ++ [r0]) enq).ops := by
                    rw [ht]; simp
                  simpa [drainRemaining, hh] using this
            · refine Or.inr ⟨outs2, tid2, run_id2, hok, ?_⟩
              simpa [drainRemaining, hh] using hmem

/-- If the drain loop finishes without an uncaught dispatcher exception,
the tool-request queue is empty, every request of the entry queue and
every request enqueued by a follow-up stream was dispatched, and every
newly dispatched request was handled successfully with its outputs
submitted back. -/
theorem drainToolRequests_drained (files : FileId → String)
    (fws : List (List StreamEvent)) (q : List ToolRequestData)
    (messages : List Msg) (acfi : List FileId) (ops : List RemoteOp)
    (disp enq : List ToolRequestData)
    (hab : (drainToolRequests files q fws messages acfi ops disp enq).aborted = false) :
    (drainToolRequests files q fws messages acfi ops disp enq).queueFinal = []
    ∧ (∀ r ∈ disp, r ∈ (drainToolRequests files q fws messages acfi ops disp enq).dispatched)
    ∧ (∀ r ∈ q, r ∈ (drainToolRequests files q fws messages acfi ops disp enq).dispatched)
    ∧ (∀ r ∈ (drainToolRequests files q fws messages acfi ops disp enq).enqueuedLog,
        r ∈ enq ∨ r ∈ (drainToolRequests files q fws messages acfi ops disp enq).dispatched)
    ∧ (∀ r ∈ (drainToolRequests files q fws messages acfi ops disp enq).dispatched,
        r ∈ disp ∨ ∃ outs tid run_id,
          handle_requires_action r = .ok (outs, tid, run_id)
          ∧ RemoteOp.submitToolOutputs tid run_id outs
              ∈ (drainToolRequests files q fws messages acfi ops disp enq).ops) := by
  induction fws generalizing q messages acfi ops disp enq with
  | nil =>
      rw [drainToolRequests_nil] at hab ⊢
      obtain ⟨hqf, hdisp, hq, hcls⟩ :=
        drainRemaining_drained q messages acfi ops disp enq hab
      obtain ⟨_, _, he, _, _⟩ := drainRemaining_frame q messages acfi ops disp enq
      exact ⟨hqf, hdisp, hq, fun r hr => Or.inl (he ▸ hr), hcls⟩
  | cons fw fws ih =>
      cases q with
      | nil =>
          refine ⟨rfl, ?_, ?_, ?_, ?_⟩
          · intro r hr; simpa [drainToolRequests] using hr
          · intro r hr; simp at hr
          · intro r hr; exact Or.inl (by simpa [drainToolRequests] using hr)
          · intro r hr; exact Or.inl (by simpa [drainToolRequests] using hr)
      | cons r0 rest =>
          cases hh : handle_requires_action r0 with
          | error e => simp [drainToolRequests, hh] at hab
          | ok v =>
              obtain ⟨outs, tid, run_id⟩ := v
              have hab2 : (drainToolRequests files
                  (rest ++ (data_streamer files fw false).enqueued.toList) fws
                  (displayStreamMessages messages (data_streamer files fw false).yielded)
                  (acfi ++ (data_streamer files fw false).imageIds)
                  (ops ++ [RemoteOp.submitToolOutputs tid run_id outs])
                  (disp ++ [r0])
                  (enq ++ (data_streamer files fw false).enqueued.toList)).aborted
                    = false := by
                simpa [drainToolRequests, hh] using hab
              obtain ⟨hqf, hdisp, hq, henq, hcls⟩ := ih
                (rest ++ (data_streamer files fw false).enqueued.toList)
                (displayStreamMessages messages (data_streamer files fw false).yielded)
                (acfi ++ (data_streamer files fw false).imageIds)
                (ops ++ [RemoteOp.submitToolOutputs tid run_id outs])
                (disp ++ [r0])
                (enq ++ (data_streamer files fw false).enqueued.toList)
                hab2
              obtain ⟨_, t, ht, _⟩ := drainToolRequests_frame files fws
                (rest ++ (data_streamer files fw false).enqueued.toList)
                (displayStreamMessages messages (data_streamer files fw false).yielded)
                (acfi ++ (data_streamer files fw false).imageIds)
                (ops ++ [RemoteOp.submitToolOutputs tid run_id outs])
                (disp ++ [r0])
                (enq ++ (data_streamer files fw false).enqueued.toList)
              refine ⟨?_, ?_, ?_, ?_, ?_⟩
              · simpa [drainToolRequests, hh] using hqf
              · intro r hr
                have := hdisp r (by simp [hr])
                simpa [drainToolRequests, hh] using this
              · intro r hr
                rcases List.mem_cons.mp hr with h | h
                · subst h
                  have := hdisp r (by simp)
                  simpa [drainToolRequests, hh] using this
                · have := hq r (by simp [h])
                  simpa [drainToolRequests, hh] using this
              · intro r hr
                have hr2 : r ∈ (drainToolRequests files
                    (rest ++ (data_streamer files fw false).enqueued.toList) fws
                    (displayStreamMessages messages (data_streamer files fw false).yielded)
                    (acfi ++ (data_streamer files fw false).imageIds)
                    (ops ++ [RemoteOp.submitToolOutputs tid run_id outs])
                    (disp ++ [r0])
                    (enq ++ (data_streamer files fw false).enqueued.toList)).enqueuedLog := by
                  simpa [drainToolRequests, hh] using hr
                rcases henq r hr2 with h | h
                · rcases List.mem_append.mp h with h1 | h1
                  · exact Or.inl h1
                  · have := hq r (by simp [h1])
                    exact Or.inr (by simpa [drainToolRequests, hh] using this)
                · exact Or.inr (by simpa [drainToolRequests, hh] using h)
              · intro r hr
                have hr2 : r ∈ (drainToolRequests files
                    (rest ++ (data_streamer files fw false).enqueued.toList) fws
                    (displayStreamMessages messages (data_streamer files fw false).yielded)
                    (acfi ++ (data_streamer files fw false).imageIds)
                    (ops ++ [RemoteOp.submitToolOutputs tid run_id outs])
                    (disp ++ [r0])
                    (enq ++ (data_streamer files fw false).enqueued.toList)).dispatched := by
                  simpa [drainToolRequests, hh] using hr
                rcases hcls r hr2 with h | ⟨outs2, tid2, run_id2, hok, hmem⟩
                · rcases List.mem_append.mp h with h1 | h1
                  · exact Or.inl h1
                  · refine Or.inr ⟨outs, tid, run_id, ?_, ?_⟩
                    · have : r = r0 := by simpa using h1
                      rw [this, hh]
                    · have : RemoteOp.submitToolOutputs tid run_id outs
                          ∈ (drainToolRequests files
                            (rest ++ (data_streamer files fw false).enqueued.toList) fws
                            (displayStreamMessages messages (data_streamer files fw false).yielded)
                            (acfi ++ (data_streamer files fw false).imageIds)
                            (ops ++ [RemoteOp.submitToolOutputs tid run_id outs])
                            (disp ++ [r0])
                            (enq ++ (data_streamer files fw false).enqueued.toList)).ops := by
                        rw [ht]; simp
                      simpa [drainToolRequests, hh] using this
                · refine Or.inr ⟨outs2, tid2, run_id2, hok, ?_⟩
                  simpa [drainToolRequests, hh] using hmem

/-- Claim C2: for a question turn that starts with an empty tool-request
queue (the queue is created empty and every turn drains it) and whose
drain loop finishes without an uncaught dispatcher exception, the queue
is empty when the orchestrator finishes the question, and every
ToolRequest enqueued during the run — by the initial stream or by any
follow-up stream — was dequeued, dispatched through
`handle_requires_action`, and had its outputs submitted back
(a `submitToolOutputs` call for it appears in the turn trace). -/
theorem c2_all_tool_requests_drained (env : Env) (s0 : SessionState) (q : String)
    (hq : s0.tool_requests = [])
    (hab : (analysisTurn env s0 (some q)).aborted = false) :
    (analysisTurn env s0 (some q)).state.tool_requests = []
    ∧ ∀ r ∈ (analysisTurn env s0 (some q)).enqueuedLog,
        r ∈ (analysisTurn env s0 (some q)).dispatched
        ∧ ∃ outs tid run_id, handle_requires_action r = .ok (outs, tid, run_id)
            ∧ RemoteOp.submitToolOutputs tid run_id outs
                ∈ (analysisTurn env s0 (some q)).ops := by
  by_cases hmod : moderation_endpoint env.moderationResult = true
  · refine ⟨?_, ?_⟩
    · simp [analysisTurn, hmod, ensureThread_tool_requests, hq]
    · intro r hr
      simp [analysisTurn, hmod] at hr
  · rw [Bool.not_eq_true] at hmod
    simp only [analysisTurn, hmod, Bool.false_eq_true, if_false,
      ensureThread_tool_requests, hq, List.nil_append] at hab ⊢
    split at hab
    · simp at hab
    · rename_i hdra
      rw [Bool.not_eq_true] at hdra
      obtain ⟨hqf, hdisp, hqd, henq, hcls⟩ :=
        drainToolRequests_drained env.files env.followupStreams _ _ _ _ _ _ hdra
      simp only [hdra, Bool.false_eq_true, if_false]
      refine ⟨hqf, ?_⟩
      intro r hr
      have hrd := (henq r hr).elim (fun h => hqd r h) (fun h => h)
      refine ⟨hrd, ?_⟩
      rcases hcls r hrd with h | ⟨outs, tid, run_id, hok, hmem⟩
      · simp at h
      · exact ⟨outs, tid, run_id, hok, List.mem_append_left _ hmem⟩

/-- Witness for C2: the happy-path environment where the initial stream
raises one `analyze_data` tool request and the follow-up stream streams
text. -/
theorem c2_all_tool_requests_drained_witness :
    (baseState.tool_requests = []
      ∧ (analysisTurn happyEnv baseState (some "hello")).aborted = false)
    ∧ ((analysisTurn happyEnv baseState (some "hello")).state.tool_requests = []
      ∧ ∀ r ∈ (analysisTurn happyEnv baseState (some "hello")).enqueuedLog,
          r ∈ (analysisTurn happyEnv baseState (some "hello")).dispatched
          ∧ ∃ outs tid run_id, handle_requires_action r = .ok (outs, tid, run_id)
              ∧ RemoteOp.submitToolOutputs tid run_id outs
                  ∈ (analysisTurn happyEnv baseState (some "hello")).ops) :=
  ⟨⟨rfl, by decide⟩,
   c2_all_tool_requests_drained happyEnv baseState "hello" rfl (by decide)⟩

/-- The thread id `ensureThread` returns is the one stored in the state
it returns. -/
theorem ensureThread_thread_id (s : SessionState) (f : ThreadId) :
    (ensureThread s f).1.thread_id = some (ensureThread s f).2.1 := by
  cases h : s.thread_id <;> simp [ensureThread, h]

/-- The remote calls `ensureThread` makes are thread creation and the
file attachment, both on the fresh id, and only when the stored id was
null. -/
theorem ensureThread_ops_mem (s : SessionState) (f : ThreadId) (o : RemoteOp) :
    o ∈ (ensureThread s f).2.2 →
      o = RemoteOp.threadCreate f ∨ o = RemoteOp.threadUpdate f s.file_ids := by
  cases h : s.thread_id <;> simp [ensureThread, h]

/-- The turn never changes the stored thread id after `ensureThread`. -/
theorem analysisTurn_thread_id (env : Env) (s0 : SessionState)
    (question : Option String) :
    (analysisTurn env s0 question).state.thread_id
      = (ensureThread s0 env.freshThreadId).1.thread_id := by
  cases question with
  | none => rfl
  | some q =>
      by_cases hmod : moderation_endpoint env.moderationResult = true
      · simp [analysisTurn, hmod]
      · rw [Bool.not_eq_true] at hmod
        simp only [analysisTurn, hmod, Bool.false_eq_true, if_false]
        split <;> rfl

/-- Every `messageCreate` call of a turn comes from the question branch:
it carries the ensured thread id, the user role and the question text,
and only happens on an unflagged question. -/
theorem analysisTurn_messageCreate_mem (env : Env) (s0 : SessionState)
    (question : Option String) (t : ThreadId) (role content : String)
    (hm : RemoteOp.messageCreate t role content ∈ (analysisTurn env s0 question).ops) :
    ∃ q, question = some q
      ∧ moderation_endpoint env.moderationResult = false
      ∧ t = (ensureThread s0 env.freshThreadId).2.1
      ∧ role = "user" ∧ content = q := by
  cases question with
  | none =>
      exfalso
      simp only [analysisTurn] at hm
      rcases ensureThread_ops_mem s0 env.freshThreadId _ hm with h | h <;> simp at h
  | some q =>
      by_cases hmod : moderation_endpoint env.moderationResult = true
      · exfalso
        simp only [analysisTurn, hmod, if_true, eq_self_iff_true] at hm
        rcases List.mem_append.mp hm with h | h
        · rcases ensureThread_ops_mem s0 env.freshThreadId _ h with h2 | h2 <;>
            simp at h2
        · simp at h
      · rw [Bool.not_eq_true] at hmod
        refine ⟨q, rfl, hmod, ?_⟩
        simp only [analysisTurn, hmod, Bool.false_eq_true, if_false] at hm
        set dr := drainToolRequests env.files
          ((ensureThread s0 env.freshThreadId).1.tool_requests
            ++ (data_streamer env.files env.initialStream false).enqueued.toList)
          env.followupStreams
          (displayStreamMessages
            ((ensureThread s0 env.freshThreadId).1.messages
              ++ [Msg.mk "user" (MsgContent.text q)])
            (data_streamer env.files env.initialStream false).yielded)
          ((ensureThread s0 env.freshThreadId).1.assistant_created_file_ids
            ++ (data_streamer env.files env.initialStream false).imageIds)
          ((ensureThread s0 env.freshThreadId).2.2
            ++ [RemoteOp.moderationCheck q,
                RemoteOp.messageCreate (ensureThread s0 env.freshThreadId).2.1 "user" q,
                RemoteOp.runStream (ensureThread s0 env.freshThreadId).2.1])
          [] ((data_streamer env.files env.initialStream false).enqueued.toList)
          with hdr
        obtain ⟨_, tsub, ht, hs⟩ := drainToolRequests_frame env.files env.followupStreams
          ((ensureThread s0 env.freshThreadId).1.tool_requests
            ++ (data_streamer env.files env.initialStream false).enqueued.toList)
          (displayStreamMessages
            ((ensureThread s0 env.freshThreadId).1.messages
              ++ [Msg.mk "user" (MsgContent.text q)])
            (data_streamer env.files env.initialStream false).yielded)
          ((ensureThread s0 env.freshThreadId).1.assistant_created_file_ids
            ++ (data_streamer env.files env.initialStream false).imageIds)
          ((ensureThread s0 env.freshThreadId).2.2
            ++ [RemoteOp.moderationCheck q,
                RemoteOp.messageCreate (ensureThread s0 env.freshThreadId).2.1 "user" q,
                RemoteOp.runStream (ensureThread s0 env.freshThreadId).2.1])
          [] ((data_streamer env.files env.initialStream false).enqueued.toList)
        rw [← hdr] at ht
        cases habort : dr.aborted with
        | true =>
            simp only [habort, if_true, eq_self_iff_true] at hm
            rw [ht] at hm
            rcases List.mem_append.mp hm with h | h
            · rcases List.mem_append.mp h with h1 | h1
              · exfalso
                rcases ensureThread_ops_mem s0 env.freshThreadId _ h1 with h2 | h2 <;>
                  simp at h2
              · simpa using h1
            · exfalso
              obtain ⟨tid2, rid2, outs2, h2⟩ := hs _ h
              simp at h2
        | false =>
            simp only [habort, Bool.false_eq_true, if_false] at hm
            rcases List.mem_append.mp hm with hmain | htail
            · rw [ht] at hmain
              rcases List.mem_append.mp hmain with h | h
              · rcases List.mem_append.mp h with h1 | h1
                · exfalso
                  rcases ensureThread_ops_mem s0 env.freshThreadId _ h1 with h2 | h2 <;>
                    simp at h2
                · simpa using h1
              · exfalso
                obtain ⟨tid2, rid2, outs2, h2⟩ := hs _ h
                simp at h2
            · exfalso
              simp at htail

/-- When the turn begins with a null thread id, the very first remote
calls of the turn are the thread creation and the file attachment. -/
theorem analysisTurn_ops_head (env : Env) (s0 : SessionState)
    (question : Option String) (h0 : s0.thread_id = none) :
    ∃ rest, (analysisTurn env s0 question).ops
      = RemoteOp.threadCreate env.freshThreadId
        :: RemoteOp.threadUpdate env.freshThreadId s0.file_ids :: rest := by
  cases question with
  | none => exact ⟨[], by simp [analysisTurn, ensureThread, h0]⟩
  | some q =>
      by_cases hmod : moderation_endpoint env.moderationResult = true
      · exact ⟨[RemoteOp.moderationCheck q],
          by simp [analysisTurn, ensureThread, h0, hmod]⟩
      · rw [Bool.not_eq_true] at hmod
        simp only [analysisTurn, ensureThread, h0, hmod, Bool.false_eq_true, if_false]
        obtain ⟨_, tsub, ht, _⟩ := drainToolRequests_frame env.files env.followupStreams
          (s0.tool_requests
            ++ (data_streamer env.files env.initialStream false).enqueued.toList)
          (displayStreamMessages
            (s0.messages ++ [Msg.mk "user" (MsgContent.text q)])
            (data_streamer env.files env.initialStream false).yielded)
          (s0.assistant_created_file_ids
            ++ (data_streamer env.files env.initialStream false).imageIds)
          ([RemoteOp.threadCreate env.freshThreadId,
            RemoteOp.threadUpdate env.freshThreadId s0.file_ids]
            ++ [RemoteOp.moderationCheck q,
                RemoteOp.messageCreate env.freshThreadId "user" q,
                RemoteOp.runStream env.freshThreadId])
          [] ((data_streamer env.files env.initialStream false).enqueued.toList)
        split
        · exact ⟨[RemoteOp.moderationCheck q,
              RemoteOp.messageCreate env.freshThreadId "user" q,
              RemoteOp.runStream env.freshThreadId] ++ tsub,
            by rw [ht]; simp⟩
        · exact ⟨([RemoteOp.moderationCheck q,
              RemoteOp.messageCreate env.freshThreadId "user" q,
              RemoteOp.runStream env.freshThreadId] ++ tsub)
              ++ RemoteOp.messagesList env.freshThreadId
                :: (retrieveAssistantCreatedFilesCall env.messagesListResult).map
                    RemoteOp.filesContent,
            by rw [ht]; simp⟩

/-- Claim C9: every remote message-create call of a turn uses a non-null
thread identifier, namely the one stored in the session after the
orchestrator ensured the thread exists (which it does before any chat
input is processed): the final state stores exactly that id, and either
the thread already existed when the turn began, or it was created (and
the uploaded files attached) as the first remote calls of the very same
turn, before the message create. -/
theorem c9_message_create_uses_live_thread (env : Env) (s0 : SessionState)
    (question : Option String) (t : ThreadId) (role content : String)
    (hm : RemoteOp.messageCreate t role content ∈ (analysisTurn env s0 question).ops) :
    (analysisTurn env s0 question).state.thread_id = some t
    ∧ (s0.thread_id = some t
      ∨ (s0.thread_id = none ∧ t = env.freshThreadId
          ∧ ∃ rest, (analysisTurn env s0 question).ops
              = RemoteOp.threadCreate t
                :: RemoteOp.threadUpdate t s0.file_ids :: rest)) := by
  obtain ⟨q, hqe, hmod, htid, hrole, hcontent⟩ :=
    analysisTurn_messageCreate_mem env s0 question t role content hm
  constructor
  · rw [analysisTurn_thread_id, ensureThread_thread_id, htid]
  · cases h0 : s0.thread_id with
    | some t0 =>
        left
        rw [htid]
        simp [ensureThread, h0]
    | none =>
        right
        have hfresh : t = env.freshThreadId := by
          rw [htid]; simp [ensureThread, h0]
        refine ⟨rfl, hfresh, ?_⟩
        rw [hfresh]
        exact analysisTurn_ops_head env s0 question h0

/-- Witness for C9: the happy-path turn contains a message-create call. -/
theorem c9_message_create_uses_live_thread_witness :
    (RemoteOp.messageCreate "t0" "user" "hello"
        ∈ (analysisTurn happyEnv baseState (some "hello")).ops)
    ∧ ((analysisTurn happyEnv baseState (some "hello")).state.thread_id = some "t0"
      ∧ (baseState.thread_id = some "t0"
        ∨ (baseState.thread_id = none ∧ "t0" = happyEnv.freshThreadId
            ∧ ∃ rest, (analysisTurn happyEnv baseState (some "hello")).ops
                = RemoteOp.threadCreate "t0"
                  :: RemoteOp.threadUpdate "t0" baseState.file_ids :: rest))) :=
  ⟨by decide,
   c9_message_create_uses_live_thread happyEnv baseState (some "hello")
     "t0" "user" "hello" (by decide)⟩

/-- The unflagged question path always appends the user message to the
transcript and creates it remotely on the ensured thread. -/
theorem analysisTurn_user_message (env : Env) (s0 : SessionState) (q : String)
    (hmod : moderation_endpoint env.moderationResult = false) :
    Msg.mk "user" (MsgContent.text q)
        ∈ (analysisTurn env s0 (some q)).state.messages
    ∧ RemoteOp.messageCreate (ensureThread s0 env.freshThreadId).2.1 "user" q
        ∈ (analysisTurn env s0 (some q)).ops := by
  simp only [analysisTurn, hmod, Bool.false_eq_true, if_false]
  obtain ⟨⟨tm, htm⟩, tsub, ht, _⟩ := drainToolRequests_frame env.files env.followupStreams
    ((ensureThread s0 env.freshThreadId).1.tool_requests
      ++ (data_streamer env.files env.initialStream false).enqueued.toList)
    (displayStreamMessages
      ((ensureThread s0 env.freshThreadId).1.messages
        ++ [Msg.mk "user" (MsgContent.text q)])
      (data_streamer env.files env.initialStream false).yielded)
    ((ensureThread s0 env.freshThreadId).1.assistant_created_file_ids
      ++ (data_streamer env.files env.initialStream false).imageIds)
    ((ensureThread s0 env.freshThreadId).2.2
      ++ [RemoteOp.moderationCheck q,
          RemoteOp.messageCreate (ensureThread s0 env.freshThreadId).2.1 "user" q,
          RemoteOp.runStream (ensureThread s0 env.freshThreadId).2.1])
    [] ((data_streamer env.files env.initialStream false).enqueued.toList)
  obtain ⟨t1, h1⟩ := displayStreamMessages_extends
    ((ensureThread s0 env.freshThreadId).1.messages
      ++ [Msg.mk "user" (MsgContent.text q)])
    (data_streamer env.files env.initialStream false).yielded
  constructor
  · split <;> (rw [htm, h1]; simp)
  · split <;> simp [ht]

/-- Claim C10: the moderation check fails open.  When the remote
moderation call raises, `moderation_endpoint` returns false, and the turn
is literally the turn an unflagged result would produce: in particular
the question is appended to the transcript and created remotely. -/
theorem c10_moderation_check_fails_open (env : Env) (s0 : SessionState)
    (q e : String) :
    moderation_endpoint (Except.error e) = false
    ∧ analysisTurn { env with moderationResult := Except.error e } s0 (some q)
        = analysisTurn { env with moderationResult := Except.ok false } s0 (some q)
    ∧ Msg.mk "user" (MsgContent.text q)
        ∈ (analysisTurn { env with moderationResult := Except.error e }
            s0 (some q)).state.messages
    ∧ ∃ tid, RemoteOp.messageCreate tid "user" q
        ∈ (analysisTurn { env with moderationResult := Except.error e }
            s0 (some q)).ops := by
  obtain ⟨h1, h2⟩ :=
    analysisTurn_user_message { env with moderationResult := Except.error e } s0 q rfl
  exact ⟨rfl, rfl, h1, _, h2⟩

/-- Claim C3 fails on the code: the streamer does record every streamed
image file id in `ss.assistant_created_file_ids` (app.py 226), but after
the run settles line 420 overwrites that list with
`retrieve_assistant_created_files(ss.thread_id)`, which collects only the
attachments of assistant messages.  At the failing input `imageEnv` the
stream emits image file `img1` (so it is recorded mid-turn), the thread
has no assistant attachments, and the final list and the download
offering are both empty: the streamed image id is not among the ids
offered for download, contradicting the claim. -/
theorem c3_streamed_image_id_not_offered :
    (data_streamer imageEnv.files imageEnv.initialStream false).imageIds = ["img1"]
    ∧ (analysisTurn imageEnv baseState (some "plot it")).aborted = false
    ∧ (analysisTurn imageEnv baseState (some "plot it")).state.assistant_created_file_ids = []
    ∧ (analysisTurn imageEnv baseState (some "plot it")).downloadsOffered = []
    ∧ ¬ "img1" ∈ (analysisTurn imageEnv baseState (some "plot it")).downloadsOffered := by
  refine ⟨rfl, ?_, ?_, ?_, ?_⟩ <;> decide

end StAssistant
